import Mathlib

/-!
Shallow embedding of the load-forecasting and overflow-alerting engine of the
transport system repository, together with proofs checking the natural
language specification against the code.

Data model (from routes/models.py, preinforms/models.py, schedules/models.py,
demand/models.py): routes with sequenced stops, pre-informs (demand intents),
schedules (trips), buses (vehicles) and demand alerts.  Dates and times are
encoded as natural numbers; Django foreign keys are embedded as the referenced
record (attribute access in the ORM) or as an id where only the id is used.
-/

namespace Transport

/-- A route (routes/models.py Route).  Only the fields the core logic touches
are embedded: the primary key, the zone foreign key (as an id) and the
display fields used in notes. -/
structure Route where
  id : Nat
  zoneId : Nat
  number : String
  name : String
deriving Repr, DecidableEq

/-- A stop on a route (routes/models.py Stop): belongs to one route and has a
sequence number ordering it along the route. -/
structure Stop where
  id : Nat
  route : Route
  name : String
  sequence : Nat
deriving Repr, DecidableEq

/-- A pre-inform (preinforms/models.py PreInform): an advance declaration of
intended travel on a route and date, boarding at a given stop, with a
passenger count (PositiveIntegerField, hence Nat) and a status string in
pending, noted, completed, cancelled. -/
structure PreInform where
  id : Nat
  route : Route
  date_of_travel : Nat
  boarding_stop : Stop
  passenger_count : Nat
  status : String
deriving Repr, DecidableEq

/-- A bus (schedules/models.py Bus): capacity, activity and running flags and
the links to the route and schedule it is currently serving. -/
structure Bus where
  id : Nat
  number_plate : String
  capacity : Nat
  is_active : Bool
  is_running : Bool
  current_route : Option Nat
  current_schedule : Option Nat
deriving Repr, DecidableEq

/-- A schedule (schedules/models.py Schedule), the Trip of the specification:
one bus and driver on one route, date and departure time, with live passenger
count and current stop sequence.  The bus foreign key is embedded as an
optional Bus record because views.py defensively checks for its absence. -/
structure Schedule where
  id : Nat
  route : Route
  bus : Option Bus
  driverId : Nat
  date : Nat
  departure_time : Nat
  arrival_time : Nat
  total_seats : Nat
  available_seats : Nat
  current_passengers : Nat
  current_stop_sequence : Nat
  starting_stop_sequence : Nat
  is_spare_trip : Bool
  source_alert : Option Nat
deriving Repr, DecidableEq

/-- A demand alert (demand/models.py DemandAlert): target stop, count, status
string in reported, verified, dispatched, resolved, expired, creation date and
free text admin notes.  The user field is None for system generated alerts. -/
structure DemandAlert where
  id : Nat
  user : Option Nat
  stop : Stop
  number_of_people : Nat
  status : String
  created_at_date : Nat
  admin_notes : String
deriving Repr, DecidableEq

/-- Sum of the passenger counts of a list of pre-informs (the Sum aggregate
used by the grouping queries). -/
def sumPassengerCounts (l : List PreInform) : Nat :=
  l.foldl (fun acc p => acc + p.passenger_count) 0

/-- Case insensitive substring test, embedding the Django icontains lookup
used on the admin_notes field. -/
def strContainsCI (hay pat : String) : Bool :=
  let h := hay.toList.map Char.toLower
  let p := pat.toList.map Char.toLower
  (List.range (h.length + 1)).any (fun i => p.isPrefixOf (h.drop i))

/-- Optional zone restriction: when a zone is given the record must belong to
it, otherwise everything matches (the `if zone is not None` filters). -/
def zoneMatches (zone : Option Nat) (zoneId : Nat) : Bool :=
  match zone with
  | none => true
  | some z => zoneId == z

/-!
## Load forecast of schedules/views.py: compute_future_load_for_schedule

The function resolves capacity as `schedule.total_seats or (schedule.bus.capacity
if schedule.bus else None)` (0 when None), collects pre-informs of the route and
date boarding strictly after the current stop sequence, sums them per boarding
stop sequence, and walks the stops of the route in ascending sequence order,
skipping stops at or before the current sequence, accumulating the running
load and flagging overflow where the predicted load strictly exceeds capacity.
-/

/-- One entry of the future_stops output list of
compute_future_load_for_schedule. -/
structure FutureStopOut where
  sequence : Nat
  name : String
  incoming_preinform : Nat
  predicted_after : Nat
  overflow : Bool
deriving Repr, DecidableEq

/-- The forecast result dict of compute_future_load_for_schedule. -/
structure ForecastResult where
  schedule_id : Nat
  capacity : Nat
  current_stop_sequence : Nat
  current_passengers : Nat
  future_stops : List FutureStopOut
  will_overflow : Bool
  overflow_from_stop_sequence : Option Nat
deriving Repr, DecidableEq

/-- The pre-informs feeding the forecast: same route, same travel date,
boarding stop strictly after the current stop sequence. -/
def futurePreinforms (preinforms : List PreInform) (routeId date current_seq : Nat) :
    List PreInform :=
  preinforms.filter (fun p =>
    p.route.id == routeId && p.date_of_travel == date
      && current_seq < p.boarding_stop.sequence)

/-- The future_demand dictionary: total pre-informed passengers boarding at a
given stop sequence (0 when no entry exists). -/
def future_demand (fps : List PreInform) (seq : Nat) : Nat :=
  sumPassengerCounts (fps.filter (fun p => p.boarding_stop.sequence == seq))

/-- The stop walk of compute_future_load_for_schedule: skip stops at or before
the current sequence, add the incoming demand, flag overflow when the
predicted load strictly exceeds capacity, and record the first overflowing
stop sequence.  Returns the output rows, the will_overflow flag and the
overflow_from_stop_seq value. -/
def forecastLoop (capacity current_seq : Nat) (demand : Nat → Nat) :
    List Stop → Nat → Bool → Option Nat → List FutureStopOut × Bool × Option Nat
  | [], _, willOv, ovFrom => ([], willOv, ovFrom)
  | stop :: rest, running_load, willOv, ovFrom =>
    if stop.sequence ≤ current_seq then
      forecastLoop capacity current_seq demand rest running_load willOv ovFrom
    else
      let incoming := demand stop.sequence
      let predicted_after := running_load + incoming
      let overflow_here : Bool := decide (capacity < predicted_after)
      let willOv2 := willOv || overflow_here
      let ovFrom2 := if overflow_here && !willOv then some stop.sequence else ovFrom
      let out := forecastLoop capacity current_seq demand rest predicted_after willOv2 ovFrom2
      (⟨stop.sequence, stop.name, incoming, predicted_after, overflow_here⟩ :: out.1,
        out.2.1, out.2.2)

/-- compute_future_load_for_schedule (schedules/views.py): the core prediction
function.  The stops parameter is the ordered stop list of the route of the
schedule as delivered by route.stops.all().order_by("sequence"); the
preinforms parameter is the PreInform table. -/
def compute_future_load_for_schedule (sch : Schedule) (stops : List Stop)
    (preinforms : List PreInform) : ForecastResult :=
  let capacity :=
    if sch.total_seats ≠ 0 then sch.total_seats
    else
      match sch.bus with
      | some b => b.capacity
      | none => 0
  let current_passengers := sch.current_passengers
  let current_seq := sch.current_stop_sequence
  let fps := futurePreinforms preinforms sch.route.id sch.date current_seq
  let walk := forecastLoop capacity current_seq (future_demand fps) stops
    current_passengers false none
  { schedule_id := sch.id
    capacity := capacity
    current_stop_sequence := current_seq
    current_passengers := current_passengers
    future_stops := walk.1
    will_overflow := walk.2.1
    overflow_from_stop_sequence := walk.2.2 }

/-!
## Trip position update of schedules/views.py: update_current_stop

After authentication, the view validates that the posted stop_sequence parses
to a positive integer (otherwise HTTP 400), then compares against the stored
current_stop_sequence: a strictly smaller value is ignored (HTTP 200 with
success false and the old value), otherwise the new value is stored.
-/

/-- Outcome of update_current_stop: invalid models the HTTP 400 branch for a
non positive stop_sequence, ignored models the success false response that
keeps the old sequence, applied models the success true response. -/
inductive UpdateStopResult where
  | invalid : UpdateStopResult
  | ignored (current_stop_sequence : Nat) : UpdateStopResult
  | applied (current_stop_sequence : Nat) : UpdateStopResult
deriving Repr, DecidableEq

/-- update_current_stop (schedules/views.py): the parsed integer input and the
schedule record, returning the possibly updated schedule and the response
outcome. -/
def update_current_stop (sch : Schedule) (stop_sequence : Int) :
    Schedule × UpdateStopResult :=
  if stop_sequence ≤ 0 then (sch, UpdateStopResult.invalid)
  else
    let old_seq := sch.current_stop_sequence
    if stop_sequence < (old_seq : Int) then (sch, UpdateStopResult.ignored old_seq)
    else ({ sch with current_stop_sequence := stop_sequence.toNat },
      UpdateStopResult.applied stop_sequence.toNat)

/-!
## Bus load prediction of zonaladmin/logic/alert_engine.py

The module defines compute_bus_load_for_schedule twice; the second definition
(line 293) shadows the first and is the one generate_prediction_alerts calls.
It resolves capacity as `schedule.total_seats or bus.capacity or 40`, filters
the noted pre-informs of the route and date, groups them by boarding stop
ordered by stop sequence, and accumulates the running load over the groups,
ignoring the current stop position entirely.
-/

/-- One row of the rows list of compute_bus_load_for_schedule.  The ratio
field embeds the Python float division running / capacity as an exact
rational (capacity is always positive in this function because of the
`or 40` fallback). -/
structure LoadRow where
  stop_id : Nat
  stop_name : String
  sequence : Nat
  boarding : Nat
  expected_load : Nat
  over_capacity : Bool
  ratio : ℚ
deriving Repr, DecidableEq

/-- The result dict of the live compute_bus_load_for_schedule. -/
structure BusLoadResult where
  capacity : Nat
  base_passengers : Nat
  rows : List LoadRow
  max_load : Nat
deriving Repr, DecidableEq

/-- Insertion step of the embedding of order_by on the grouped boarding
stops. -/
def insertBySeq (s : Stop) : List Stop → List Stop
  | [] => [s]
  | t :: ts => if s.sequence ≤ t.sequence then s :: t :: ts else t :: insertBySeq s ts

/-- Sort a list of stops by ascending sequence, embedding
order_by("boarding_stop__sequence"). -/
def sortBySeq : List Stop → List Stop
  | [] => []
  | s :: ss => insertBySeq s (sortBySeq ss)

/-- The accumulation loop over the grouped boarding stops of
compute_bus_load_for_schedule: add the boarding total of each group to the
running load and flag over_capacity when it strictly exceeds capacity. -/
def busLoadRowsLoop (capacity : Nat) (total : Stop → Nat) :
    List Stop → Nat → List LoadRow
  | [], _ => []
  | s :: rest, running =>
    let boarding := total s
    let running2 := running + boarding
    { stop_id := s.id,
      stop_name := if s.name == "" then ("Unknown stop") else s.name,
      sequence := s.sequence,
      boarding := boarding,
      expected_load := running2,
      over_capacity := decide (capacity < running2),
      ratio := (running2 : ℚ) / (capacity : ℚ) } ::
        busLoadRowsLoop capacity total rest running2

/-- compute_bus_load_for_schedule (zonaladmin/logic/alert_engine.py line 293,
the live definition): per group expected load over the noted pre-informs of
the route and date of the schedule. -/
def compute_bus_load_for_schedule (sch : Schedule) (preinforms : List PreInform) :
    BusLoadResult :=
  let capacity :=
    if sch.total_seats ≠ 0 then sch.total_seats
    else
      match sch.bus with
      | some b => if b.capacity ≠ 0 then b.capacity else 40
      | none => 40
  let base_passengers := sch.current_passengers
  let qs := preinforms.filter (fun p =>
    p.route.id == sch.route.id && p.date_of_travel == sch.date
      && p.status == "noted")
  let groupedStops := sortBySeq ((qs.map (fun p => p.boarding_stop)).dedup)
  let rows := busLoadRowsLoop capacity
    (fun s => sumPassengerCounts (qs.filter (fun p => p.boarding_stop == s)))
    groupedStops base_passengers
  { capacity := capacity
    base_passengers := base_passengers
    rows := rows
    max_load := rows.foldl (fun m r => max m r.expected_load) base_passengers }

/-!
## Alert generation of zonaladmin/logic/alert_engine.py

Both generators return early with an empty list when their base queryset is
empty, and otherwise delete the previous system alerts matched ONLY by
creation date, a substring of admin_notes and the optional zone — with no
filter on the status field — before creating the fresh alerts.  The today
parameter embeds the creation timestamp date (created_at__date) given to new
alerts, which coincides with for_date in the default invocation.
-/

/-- The substring marking demand alerts generated from pre-informs. -/
def preInformsMarker : String := "Pre-Informs"

/-- The substring marking prediction based alerts. -/
def predictionMarker : String := "Prediction:"

/-- The admin_notes text of a generated demand alert. -/
def demandAlertNote (for_date count : Nat) : String :=
  "System (Pre-Informs) – auto from NOTED pre-informs for " ++ toString for_date
    ++ ". Total expected passengers: " ++ toString count ++ "."

/-- generate_demand_alerts (zonaladmin/logic/alert_engine.py): group the noted
pre-informs of the date (and zone) by boarding stop, delete the previous
alerts of the date (and zone) whose notes contain the Pre-Informs marker, and
create one reported alert per boarding stop with the summed count.  Returns
the created alerts and the new alert table. -/
def generate_demand_alerts (for_date : Nat) (zone : Option Nat) (today : Nat)
    (preinforms : List PreInform) (stops : List Stop) (alerts : List DemandAlert) :
    List DemandAlert × List DemandAlert :=
  let qs := preinforms.filter (fun p =>
    p.date_of_travel == for_date && p.status == "noted"
      && zoneMatches zone p.route.zoneId)
  if qs.isEmpty then ([], alerts)
  else
    let groupedStops := (qs.map (fun p => p.boarding_stop)).dedup
    let kept := alerts.filter (fun a =>
      !(a.created_at_date == for_date
        && strContainsCI a.admin_notes preInformsMarker
        && zoneMatches zone a.stop.route.zoneId))
    let created := groupedStops.filterMap (fun stopRec =>
      let count := sumPassengerCounts (qs.filter (fun p => p.boarding_stop == stopRec))
      match stops.find? (fun s => s.id == stopRec.id) with
      | some stop => some
          { id := 0, user := none, stop := stop, number_of_people := count,
            status := "reported", created_at_date := today,
            admin_notes := demandAlertNote for_date count }
      | none => none)
    (created, kept ++ created)

/-- The admin_notes text of a generated prediction alert. -/
def predictionNote (schedId : Nat) (routeNumber : String) (level : String)
    (stopName : String) (load cap base for_date : Nat) : String :=
  "Prediction: Bus on schedule #" ++ toString schedId ++ " for route "
    ++ routeNumber ++ " is expected to reach " ++ level.toUpper
    ++ " load at stop " ++ stopName ++ " (expected " ++ toString load
    ++ " passengers, capacity " ++ toString cap ++ "). Base inside bus: "
    ++ toString base ++ ". Source: NOTED pre-informs for "
    ++ toString for_date ++ "."

/-- The per schedule creation loop of generate_prediction_alerts: for every
row of the bus load computation with positive expected load, create one
reported alert when the load strictly exceeds capacity (critical) or the
ratio reaches 0.9 (high); rows whose stop id is not found are skipped. -/
def predictionAlertsForSchedule (stops : List Stop) (today for_date : Nat)
    (sch : Schedule) (preinforms : List PreInform) : List DemandAlert :=
  let data := compute_bus_load_for_schedule sch preinforms
  let cap := data.capacity
  data.rows.filterMap (fun row =>
    if row.expected_load == 0 then none
    else
      let level : Option String :=
        if cap < row.expected_load then some ("critical")
        else if (9 : ℚ)/10 ≤ row.ratio then some ("high")
        else none
      match level, stops.find? (fun s => s.id == row.stop_id) with
      | some lv, some stop => some
          { id := 0, user := none, stop := stop,
            number_of_people := row.expected_load,
            status := "reported", created_at_date := today,
            admin_notes := predictionNote sch.id sch.route.number lv
              row.stop_name row.expected_load cap data.base_passengers for_date }
      | _, _ => none)

/-- generate_prediction_alerts (zonaladmin/logic/alert_engine.py): for the
schedules of the date (and zone) whose bus is running, delete the previous
alerts of the date (and zone) whose notes contain the Prediction: marker and
create the per row alerts of predictionAlertsForSchedule. -/
def generate_prediction_alerts (for_date : Nat) (zone : Option Nat) (today : Nat)
    (schedules : List Schedule) (preinforms : List PreInform) (stops : List Stop)
    (alerts : List DemandAlert) : List DemandAlert × List DemandAlert :=
  let qs := schedules.filter (fun s =>
    s.date == for_date && s.bus.any (fun b => b.is_running)
      && zoneMatches zone s.route.zoneId)
  if qs.isEmpty then ([], alerts)
  else
    let kept := alerts.filter (fun a =>
      !(a.created_at_date == for_date
        && strContainsCI a.admin_notes predictionMarker
        && zoneMatches zone a.stop.route.zoneId))
    let created := (qs.map (fun sch =>
      predictionAlertsForSchedule stops today for_date sch preinforms)).flatten
    (created, kept ++ created)

/-!
## Spare bus dispatch of zonaladmin/views.py: dispatch_spare_bus

The POST branch checks for an existing schedule with the same bus, date and
departure time and renders an error without touching anything when one
exists.  A schedule conflicting only on (driver, date, departure_time) passes
that check but violates the unique_together constraint of the Schedule model
(schedules/models.py Meta), so Schedule.objects.create raises IntegrityError:
the insert fails and the bus and alert mutations, which come after the
create, never run — embedded as the integrityError outcome with unchanged
state.  On success the new schedule starts at the overflow stop, the bus is
marked running and linked to it, and the alert becomes dispatched with a
provenance note appended to its notes.
-/

/-- State touched by dispatch_spare_bus: the schedule table, the bus table
and the alert being dispatched. -/
structure DispatchState where
  schedules : List Schedule
  buses : List Bus
  alert : DemandAlert
deriving Repr, DecidableEq

/-- Outcome of dispatch_spare_bus: the rendered bus conflict error, the
IntegrityError raised by the unique constraint on (driver, date,
departure_time), or success with the id of the created schedule. -/
inductive DispatchOutcome where
  | conflictError (message : String) : DispatchOutcome
  | integrityError : DispatchOutcome
  | success (schedule_id : Nat) : DispatchOutcome
deriving Repr, DecidableEq

/-- The provenance note appended to the alert on a successful dispatch. -/
def spareDispatchNote (plate stopName : String) (seq schedId : Nat) : String :=
  " Spare bus " ++ plate ++ " dispatched from stop " ++ stopName
    ++ " (seq: " ++ toString seq ++ ") (schedule #" ++ toString schedId ++ ")."

/-- dispatch_spare_bus (zonaladmin/views.py), the validated POST branch:
given the chosen bus, driver, date and times, either report a conflict, fail
on the driver uniqueness constraint, or create the spare schedule and update
the bus and the alert. -/
def dispatch_spare_bus (st : DispatchState) (bus_obj : Bus) (driver_id : Nat)
    (sched_date departure_time : Nat) (arrival_time : Option Nat) (new_id : Nat) :
    DispatchState × DispatchOutcome :=
  let route := st.alert.stop.route
  let overflow_stop := st.alert.stop
  if st.schedules.any (fun s =>
      s.bus.any (fun b => b.id == bus_obj.id) && s.date == sched_date
        && s.departure_time == departure_time) then
    (st, DispatchOutcome.conflictError
      ("Bus " ++ bus_obj.number_plate
        ++ " already has a schedule. Choose a different time or bus."))
  else if st.schedules.any (fun s =>
      s.driverId == driver_id && s.date == sched_date
        && s.departure_time == departure_time) then
    (st, DispatchOutcome.integrityError)
  else
    let schedule : Schedule :=
      { id := new_id, route := route, bus := some bus_obj, driverId := driver_id,
        date := sched_date, departure_time := departure_time,
        arrival_time := arrival_time.getD departure_time,
        total_seats := bus_obj.capacity, available_seats := bus_obj.capacity,
        current_passengers := 0,
        current_stop_sequence := overflow_stop.sequence,
        starting_stop_sequence := overflow_stop.sequence,
        is_spare_trip := true, source_alert := some st.alert.id }
    let extra := spareDispatchNote bus_obj.number_plate overflow_stop.name
      overflow_stop.sequence schedule.id
    ({ schedules := st.schedules ++ [schedule],
       buses := st.buses.map (fun b =>
         if b.id == bus_obj.id then
           { b with is_running := true,
                    current_route := some route.id,
                    current_schedule := some schedule.id }
         else b),
       alert := { st.alert with
                  status := "dispatched",
                  admin_notes :=
                    if st.alert.admin_notes == "" then extra
                    else st.alert.admin_notes ++ extra } },
     DispatchOutcome.success schedule.id)

/-!
## Lemmas about the forecast walk
-/

/-- Sequence of the first output row flagged as overflowing, if any. -/
def firstOverflowSeq : List FutureStopOut → Option Nat
  | [] => none
  | o :: rest => if o.overflow then some o.sequence else firstOverflowSeq rest

theorem forecastLoop_map_seq_name (capacity current_seq : Nat) (demand : Nat → Nat) :
    ∀ (stops : List Stop) (running : Nat) (w : Bool) (f : Option Nat),
      (forecastLoop capacity current_seq demand stops running w f).1.map
          (fun o => (o.sequence, o.name)) =
        (stops.filter (fun s => current_seq < s.sequence)).map
          (fun s => (s.sequence, s.name)) := by
  intro stops
  induction stops with
  | nil => intro running w f; simp [forecastLoop]
  | cons stop rest ih =>
    intro running w f
    by_cases h : stop.sequence ≤ current_seq
    · have h2 : ¬ current_seq < stop.sequence := not_lt.mpr h
      simp [forecastLoop, h, h2, ih]
    · have h2 : current_seq < stop.sequence := not_le.mp h
      simp [forecastLoop, h, h2, ih]

theorem forecastLoop_overflow_flag (capacity current_seq : Nat) (demand : Nat → Nat) :
    ∀ (stops : List Stop) (running : Nat) (w : Bool) (f : Option Nat),
      ∀ o ∈ (forecastLoop capacity current_seq demand stops running w f).1,
        o.overflow = decide (capacity < o.predicted_after) := by
  intro stops
  induction stops with
  | nil => intro running w f o ho; simp [forecastLoop] at ho
  | cons stop rest ih =>
    intro running w f o ho
    by_cases h : stop.sequence ≤ current_seq
    · rw [forecastLoop, if_pos h] at ho
      exact ih running w f o ho
    · rw [forecastLoop, if_neg h] at ho
      simp only [List.mem_cons] at ho
      rcases ho with ho | ho
      · subst ho; rfl
      · exact ih _ _ _ o ho

theorem forecastLoop_running_le (capacity current_seq : Nat) (demand : Nat → Nat) :
    ∀ (stops : List Stop) (running : Nat) (w : Bool) (f : Option Nat),
      ∀ o ∈ (forecastLoop capacity current_seq demand stops running w f).1,
        running ≤ o.predicted_after := by
  intro stops
  induction stops with
  | nil => intro running w f o ho; simp [forecastLoop] at ho
  | cons stop rest ih =>
    intro running w f o ho
    by_cases h : stop.sequence ≤ current_seq
    · rw [forecastLoop, if_pos h] at ho
      exact ih running w f o ho
    · rw [forecastLoop, if_neg h] at ho
      simp only [List.mem_cons] at ho
      rcases ho with ho | ho
      · subst ho; exact Nat.le_add_right _ _
      · exact le_trans (Nat.le_add_right _ _) (ih _ _ _ o ho)

theorem forecastLoop_mono (capacity current_seq : Nat) (demand : Nat → Nat) :
    ∀ (stops : List Stop) (running : Nat) (w : Bool) (f : Option Nat),
      (forecastLoop capacity current_seq demand stops running w f).1.Pairwise
        (fun a b => a.predicted_after ≤ b.predicted_after) := by
  intro stops
  induction stops with
  | nil => intro running w f; simp [forecastLoop]
  | cons stop rest ih =>
    intro running w f
    by_cases h : stop.sequence ≤ current_seq
    · rw [forecastLoop, if_pos h]; exact ih running w f
    · rw [forecastLoop, if_neg h]
      refine List.Pairwise.cons ?_ (ih _ _ _)
      intro o ho
      exact forecastLoop_running_le capacity current_seq demand rest _ _ _ o ho

theorem forecastLoop_map_seq (capacity current_seq : Nat) (demand : Nat → Nat) :
    ∀ (stops : List Stop) (running : Nat) (w : Bool) (f : Option Nat),
      (forecastLoop capacity current_seq demand stops running w f).1.map
          (fun o => o.sequence) =
        (stops.filter (fun s => current_seq < s.sequence)).map
          (fun s => s.sequence) := by
  intro stops
  induction stops with
  | nil => intro running w f; simp [forecastLoop]
  | cons stop rest ih =>
    intro running w f
    by_cases h : stop.sequence ≤ current_seq
    · have h2 : ¬ current_seq < stop.sequence := not_lt.mpr h
      simp [forecastLoop, h, h2, ih]
    · have h2 : current_seq < stop.sequence := not_le.mp h
      simp [forecastLoop, h, h2, ih]

theorem forecastLoop_sorted (capacity current_seq : Nat) (demand : Nat → Nat) :
    ∀ (stops : List Stop) (running : Nat) (w : Bool) (f : Option Nat),
      stops.Pairwise (fun a b => a.sequence < b.sequence) →
      (forecastLoop capacity current_seq demand stops running w f).1.Pairwise
        (fun a b => a.sequence < b.sequence) := by
  intro stops
  induction stops with
  | nil => intro running w f _; simp [forecastLoop]
  | cons stop rest ih =>
    intro running w f hsort
    rcases List.pairwise_cons.mp hsort with ⟨hhead, htail⟩
    by_cases h : stop.sequence ≤ current_seq
    · rw [forecastLoop, if_pos h]; exact ih running w f htail
    · rw [forecastLoop, if_neg h]
      refine List.Pairwise.cons ?_ (ih _ _ _ htail)
      intro o ho
      have hm := List.mem_map_of_mem (fun x : FutureStopOut => x.sequence) ho
      rw [forecastLoop_map_seq] at hm
      rcases List.mem_map.mp hm with ⟨s, hs, hseq⟩
      have hseq2 : o.sequence = s.sequence := hseq.symm
      rw [hseq2]
      exact hhead s (List.mem_of_mem_filter hs)

theorem forecastLoop_ovFrom (capacity current_seq : Nat) (demand : Nat → Nat) :
    ∀ (stops : List Stop) (running : Nat) (w : Bool) (f : Option Nat),
      (forecastLoop capacity current_seq demand stops running w f).2.2 =
        if w then f
        else (firstOverflowSeq
          (forecastLoop capacity current_seq demand stops running w f).1).elim f some := by
  intro stops
  induction stops with
  | nil =>
    intro running w f
    cases w <;> simp [forecastLoop, firstOverflowSeq]
  | cons stop rest ih =>
    intro running w f
    by_cases h : stop.sequence ≤ current_seq
    · rw [forecastLoop, if_pos h]; exact ih running w f
    · by_cases hc : capacity < running + demand stop.sequence
      · cases w with
        | true => simp [forecastLoop, h, hc, firstOverflowSeq, ih]
        | false => simp [forecastLoop, h, hc, firstOverflowSeq, ih]
      · cases w with
        | true => simp [forecastLoop, h, hc, firstOverflowSeq, ih]
        | false => simp [forecastLoop, h, hc, firstOverflowSeq, ih]

theorem firstOverflowSeq_eq_none :
    ∀ outs : List FutureStopOut,
      firstOverflowSeq outs = none ↔ ∀ o ∈ outs, o.overflow = false := by
  intro outs
  induction outs with
  | nil => simp [firstOverflowSeq]
  | cons o rest ih =>
    by_cases h : o.overflow
    · simp [firstOverflowSeq, h]
    · simp [firstOverflowSeq, h, ih]

theorem firstOverflowSeq_spec :
    ∀ (outs : List FutureStopOut) (s : Nat),
      outs.Pairwise (fun a b => a.sequence < b.sequence) →
      firstOverflowSeq outs = some s →
      ((∃ o ∈ outs, o.sequence = s ∧ o.overflow = true) ∧
        (∀ o ∈ outs, o.overflow = true → s ≤ o.sequence) ∧
        (∀ o ∈ outs, o.sequence < s → o.overflow = false)) := by
  intro outs
  induction outs with
  | nil => intro s _ hf; simp [firstOverflowSeq] at hf
  | cons o rest ih =>
    intro s hsort hf
    rcases List.pairwise_cons.mp hsort with ⟨hhead, htail⟩
    by_cases h : o.overflow
    · rw [firstOverflowSeq, if_pos h] at hf
      have hs : o.sequence = s := Option.some_injective _ hf
      refine ⟨⟨o, List.mem_cons_self o rest, hs, h⟩, ?_, ?_⟩
      · intro x hx _
        rcases List.mem_cons.mp hx with hx | hx
        · subst hx; exact le_of_eq hs.symm
        · exact le_of_lt (hs ▸ hhead x hx)
      · intro x hx hlt
        rcases List.mem_cons.mp hx with hx | hx
        · subst hx; exact absurd hlt (lt_irrefl _ ∘ (hs ▸ ·))
        · exact absurd hlt (not_lt.mpr (le_of_lt (hs ▸ hhead x hx)))
    · rw [firstOverflowSeq, if_neg h] at hf
      rcases ih s htail hf with ⟨⟨x, hx, hxs, hxo⟩, hmin, hbefore⟩
      refine ⟨⟨x, List.mem_cons_of_mem o hx, hxs, hxo⟩, ?_, ?_⟩
      · intro y hy hyo
        rcases List.mem_cons.mp hy with hy | hy
        · subst hy; exact absurd hyo (by simp [h])
        · exact hmin y hy hyo
      · intro y hy hlt
        rcases List.mem_cons.mp hy with hy | hy
        · subst hy; exact eq_false_of_ne_true (by simp [h])
        · exact hbefore y hy hlt

theorem cfl_future_stops_eq (sch : Schedule) (stops : List Stop)
    (preinforms : List PreInform) :
    (compute_future_load_for_schedule sch stops preinforms).future_stops =
      (forecastLoop (compute_future_load_for_schedule sch stops preinforms).capacity
        sch.current_stop_sequence
        (future_demand (futurePreinforms preinforms sch.route.id sch.date
          sch.current_stop_sequence))
        stops sch.current_passengers false none).1 := rfl

theorem cfl_ovFrom_raw (sch : Schedule) (stops : List Stop)
    (preinforms : List PreInform) :
    (compute_future_load_for_schedule sch stops preinforms).overflow_from_stop_sequence =
      (forecastLoop (compute_future_load_for_schedule sch stops preinforms).capacity
        sch.current_stop_sequence
        (future_demand (futurePreinforms preinforms sch.route.id sch.date
          sch.current_stop_sequence))
        stops sch.current_passengers false none).2.2 := rfl

theorem cfl_overflow_from (sch : Schedule) (stops : List Stop)
    (preinforms : List PreInform) :
    (compute_future_load_for_schedule sch stops preinforms).overflow_from_stop_sequence =
      firstOverflowSeq (compute_future_load_for_schedule sch stops preinforms).future_stops := by
  rw [cfl_ovFrom_raw, cfl_future_stops_eq, forecastLoop_ovFrom]
  cases firstOverflowSeq
    (forecastLoop (compute_future_load_for_schedule sch stops preinforms).capacity
      sch.current_stop_sequence
      (future_demand (futurePreinforms preinforms sch.route.id sch.date
        sch.current_stop_sequence))
      stops sch.current_passengers false none).1 <;> simp

theorem cfl_flag (sch : Schedule) (stops : List Stop) (preinforms : List PreInform) :
    ∀ o ∈ (compute_future_load_for_schedule sch stops preinforms).future_stops,
      o.overflow =
        decide ((compute_future_load_for_schedule sch stops preinforms).capacity
          < o.predicted_after) := by
  rw [cfl_future_stops_eq]
  exact forecastLoop_overflow_flag _ _ _ _ _ _ _

theorem cfl_sorted (sch : Schedule) (stops : List Stop) (preinforms : List PreInform)
    (hsort : stops.Pairwise (fun a b => a.sequence < b.sequence)) :
    (compute_future_load_for_schedule sch stops preinforms).future_stops.Pairwise
      (fun a b => a.sequence < b.sequence) := by
  rw [cfl_future_stops_eq]
  exact forecastLoop_sorted _ _ _ _ _ _ _ hsort

/-!
## Concrete example data

The worked scenario of the specification: a route with stops 1..5, a bus of
capacity 40, a trip at stop 1 with 30 passengers aboard, and noted
pre-informs of 5 passengers at stop 3 and 8 passengers at stop 4.
-/

def exRoute : Route := ⟨1, 1, "R1", "Route One"⟩

def exStop1 : Stop := ⟨11, exRoute, "s1", 1⟩

def exStop2 : Stop := ⟨12, exRoute, "s2", 2⟩

def exStop3 : Stop := ⟨13, exRoute, "s3", 3⟩

def exStop4 : Stop := ⟨14, exRoute, "s4", 4⟩

def exStop5 : Stop := ⟨15, exRoute, "s5", 5⟩

def exStops : List Stop := [exStop1, exStop2, exStop3, exStop4, exStop5]

def exBus : Bus := ⟨1, "KL-01-AB-1234", 40, true, true, none, none⟩

def exSchedule : Schedule :=
  ⟨7, exRoute, some exBus, 3, 20, 900, 1000, 40, 10, 30, 1, 1, false, none⟩

def exPreinforms : List PreInform :=
  [⟨1, exRoute, 20, exStop3, 5, "noted"⟩, ⟨2, exRoute, 20, exStop4, 8, "noted"⟩]

/-- The specification scenario: loads 30, 35, 43, 43 along stops 2..5 with the
first overflow at stop 4. -/
example :
    ((compute_future_load_for_schedule exSchedule exStops exPreinforms).future_stops.map
        (fun o => (o.sequence, o.predicted_after))) = [(2, 30), (3, 35), (4, 43), (5, 43)]
      ∧ (compute_future_load_for_schedule exSchedule exStops
          exPreinforms).overflow_from_stop_sequence = some 4 := by
  constructor <;> rfl

/-!
## C1: first overflow correctness of the forecast
-/

/-- C1: in compute_future_load_for_schedule, the reported
overflow_from_stop_sequence (when present) is the minimum sequence among the
walked stops whose predicted load after boarding strictly exceeds the
resolved capacity, every walked stop with a smaller sequence carries a false
overflow flag, and when no walked stop exceeds capacity the field is none. -/
theorem first_overflow_stop_correct (sch : Schedule) (stops : List Stop)
    (preinforms : List PreInform) (r : ForecastResult)
    (hr : r = compute_future_load_for_schedule sch stops preinforms)
    (hsort : stops.Pairwise (fun a b => a.sequence < b.sequence)) :
    (∀ s, r.overflow_from_stop_sequence = some s →
      ((∃ o ∈ r.future_stops, o.sequence = s ∧ r.capacity < o.predicted_after) ∧
        (∀ o ∈ r.future_stops, r.capacity < o.predicted_after → s ≤ o.sequence) ∧
        (∀ o ∈ r.future_stops, o.sequence < s → o.overflow = false))) ∧
    ((∀ o ∈ r.future_stops, o.predicted_after ≤ r.capacity) →
      r.overflow_from_stop_sequence = none) := by
  subst hr
  have hflag := cfl_flag sch stops preinforms
  have hsorted := cfl_sorted sch stops preinforms hsort
  have hov := cfl_overflow_from sch stops preinforms
  constructor
  · intro s hs
    rw [hov] at hs
    rcases firstOverflowSeq_spec _ s hsorted hs with ⟨⟨o, ho, hos, hoo⟩, hmin, hbefore⟩
    refine ⟨⟨o, ho, hos, ?_⟩, ?_, hbefore⟩
    · have := hflag o ho
      rw [this] at hoo
      exact of_decide_eq_true hoo
    · intro x hx hlt
      exact hmin x hx (by rw [hflag x hx]; exact decide_eq_true hlt)
  · intro hno
    rw [hov]
    refine (firstOverflowSeq_eq_none _).mpr ?_
    intro o ho
    rw [hflag o ho]
    exact decide_eq_false (not_lt.mpr (hno o ho))

/-- C1 witness: the specification scenario, where the first overflow is
reported at stop 4. -/
theorem first_overflow_stop_correct_witness :
    (∀ s, (compute_future_load_for_schedule exSchedule exStops
        exPreinforms).overflow_from_stop_sequence = some s →
      ((∃ o ∈ (compute_future_load_for_schedule exSchedule exStops
            exPreinforms).future_stops, o.sequence = s ∧
          (compute_future_load_for_schedule exSchedule exStops
            exPreinforms).capacity < o.predicted_after) ∧
        (∀ o ∈ (compute_future_load_for_schedule exSchedule exStops
            exPreinforms).future_stops,
          (compute_future_load_for_schedule exSchedule exStops
            exPreinforms).capacity < o.predicted_after → s ≤ o.sequence) ∧
        (∀ o ∈ (compute_future_load_for_schedule exSchedule exStops
            exPreinforms).future_stops, o.sequence < s → o.overflow = false))) ∧
    ((∀ o ∈ (compute_future_load_for_schedule exSchedule exStops
        exPreinforms).future_stops,
      o.predicted_after ≤ (compute_future_load_for_schedule exSchedule exStops
        exPreinforms).capacity) →
      (compute_future_load_for_schedule exSchedule exStops
        exPreinforms).overflow_from_stop_sequence = none) :=
  first_overflow_stop_correct exSchedule exStops exPreinforms _ rfl (by decide)

/-!
## C9: monotone predicted load
-/

/-- C9: along the walked stops of compute_future_load_for_schedule the
predicted load after boarding never decreases, and every per stop load is at
least the base passenger count of the trip. -/
theorem predicted_load_monotone (sch : Schedule) (stops : List Stop)
    (preinforms : List PreInform) (r : ForecastResult)
    (hr : r = compute_future_load_for_schedule sch stops preinforms) :
    (∀ (i : Nat) (h1 : i < r.future_stops.length) (h2 : i + 1 < r.future_stops.length),
      (r.future_stops.get ⟨i, h1⟩).predicted_after ≤
        (r.future_stops.get ⟨i + 1, h2⟩).predicted_after) ∧
    (∀ o ∈ r.future_stops, r.current_passengers ≤ o.predicted_after) := by
  subst hr
  have hmono : (compute_future_load_for_schedule sch stops preinforms).future_stops.Pairwise
      (fun a b => a.predicted_after ≤ b.predicted_after) := by
    rw [cfl_future_stops_eq]
    exact forecastLoop_mono _ _ _ _ _ _ _
  constructor
  · intro i h1 h2
    exact List.pairwise_iff_get.mp hmono ⟨i, h1⟩ ⟨i + 1, h2⟩ (Nat.lt_succ_self i)
  · intro o ho
    rw [cfl_future_stops_eq] at ho
    exact forecastLoop_running_le _ _ _ _ _ _ _ o ho

/-- C9 witness: the specification scenario evaluated concretely. -/
theorem predicted_load_monotone_witness :
    (∀ (i : Nat)
      (h1 : i < (compute_future_load_for_schedule exSchedule exStops
        exPreinforms).future_stops.length)
      (h2 : i + 1 < (compute_future_load_for_schedule exSchedule exStops
        exPreinforms).future_stops.length),
      ((compute_future_load_for_schedule exSchedule exStops
        exPreinforms).future_stops.get ⟨i, h1⟩).predicted_after ≤
        ((compute_future_load_for_schedule exSchedule exStops
          exPreinforms).future_stops.get ⟨i + 1, h2⟩).predicted_after) ∧
    (∀ o ∈ (compute_future_load_for_schedule exSchedule exStops
        exPreinforms).future_stops,
      (compute_future_load_for_schedule exSchedule exStops
        exPreinforms).current_passengers ≤ o.predicted_after) :=
  predicted_load_monotone exSchedule exStops exPreinforms _ rfl

/-!
## C8: behaviour at non positive resolved capacity
-/

def zeroCapBus : Bus := ⟨2, "KL-02-XY-0000", 0, true, true, none, none⟩

def zeroCapSchedule : Schedule :=
  ⟨10, exRoute, some zeroCapBus, 3, 20, 900, 1000, 0, 0, 30, 0, 0, false, none⟩

/-- C8 counterexample: a trip whose resolved capacity is 0 (total_seats 0 and
bus capacity 0) with 30 passengers aboard has its single remaining stop
flagged over capacity and reported as the first overflow, contradicting the
claim that capacity ≤ 0 suppresses the overflow flag and the first overflow
report. -/
theorem zero_capacity_overflow_cex :
    (compute_future_load_for_schedule zeroCapSchedule [exStop1] []).capacity = 0 ∧
    ((compute_future_load_for_schedule zeroCapSchedule [exStop1] []).future_stops.map
      (fun o => o.overflow)) = [true] ∧
    (compute_future_load_for_schedule zeroCapSchedule [exStop1]
      []).overflow_from_stop_sequence = some 1 := by
  refine ⟨rfl, rfl, rfl⟩

/-- C8 amended: compute_future_load_for_schedule applies no special case to a
non positive resolved capacity: the overflow flag of every walked stop is
simply the test that the predicted load strictly exceeds the capacity, so at
resolved capacity 0 every walked stop with positive predicted load is marked
over capacity. -/
theorem zero_capacity_overflow_amended (sch : Schedule) (stops : List Stop)
    (preinforms : List PreInform) (r : ForecastResult)
    (hr : r = compute_future_load_for_schedule sch stops preinforms)
    (hcap : r.capacity = 0) :
    ∀ o ∈ r.future_stops, o.overflow = decide (0 < o.predicted_after) := by
  subst hr
  intro o ho
  rw [cfl_flag sch stops preinforms o ho, hcap]

/-- C8 amended witness: the zero capacity trip evaluated concretely. -/
theorem zero_capacity_overflow_amended_witness :
    (compute_future_load_for_schedule zeroCapSchedule [exStop1] []).capacity = 0 ∧
    ∀ o ∈ (compute_future_load_for_schedule zeroCapSchedule [exStop1] []).future_stops,
      o.overflow = decide (0 < o.predicted_after) :=
  ⟨rfl, zero_capacity_overflow_amended zeroCapSchedule [exStop1] [] _ rfl rfl⟩

/-!
## C2: which stops the forecast covers
-/

def passedStopPreInform : PreInform := ⟨3, exRoute, 20, exStop1, 4, "noted"⟩

def midRouteSchedule : Schedule :=
  ⟨9, exRoute, some exBus, 3, 20, 900, 1000, 40, 10, 7, 2, 1, false, none⟩

/-- C2 counterexample: the alert engine forecast
compute_bus_load_for_schedule, for a trip currently at stop sequence 2, still
outputs the boarding stop of sequence 1 with its full boarding count, so the
per stop forecast output of this function is not restricted to stops strictly
after the current position. -/
theorem forecast_remaining_stops_cex :
    midRouteSchedule.current_stop_sequence = 2 ∧
    ((compute_bus_load_for_schedule midRouteSchedule [passedStopPreInform]).rows.map
      (fun r => (r.sequence, r.boarding))) = [(1, 4)] := by
  refine ⟨rfl, rfl⟩

theorem future_preinforms_cons_passed (routeId date cur : Nat) (p : PreInform)
    (preinforms : List PreInform) (h : p.boarding_stop.sequence ≤ cur) :
    futurePreinforms (p :: preinforms) routeId date cur =
      futurePreinforms preinforms routeId date cur := by
  simp [futurePreinforms, List.filter_cons, decide_eq_false (not_lt.mpr h)]

/-- C2 amended: the property holds for the schedules API forecast
compute_future_load_for_schedule: its output lists exactly the stops of the
route with sequence strictly greater than the current stop sequence, in
ascending sequence order, and a pre-inform boarding at or before the current
position leaves the whole forecast unchanged; the alert engine forecast
compute_bus_load_for_schedule instead walks all noted boarding stops of the
route and date regardless of the current position. -/
theorem future_stops_exactly_remaining (sch : Schedule) (stops : List Stop)
    (preinforms : List PreInform) (r : ForecastResult)
    (hr : r = compute_future_load_for_schedule sch stops preinforms)
    (hsort : stops.Pairwise (fun a b => a.sequence < b.sequence)) :
    (r.future_stops.map (fun o => (o.sequence, o.name)) =
      (stops.filter (fun s => sch.current_stop_sequence < s.sequence)).map
        (fun s => (s.sequence, s.name))) ∧
    r.future_stops.Pairwise (fun a b => a.sequence < b.sequence) ∧
    (∀ p : PreInform, p.boarding_stop.sequence ≤ sch.current_stop_sequence →
      compute_future_load_for_schedule sch stops (p :: preinforms) = r) := by
  subst hr
  refine ⟨?_, cfl_sorted sch stops preinforms hsort, ?_⟩
  · rw [cfl_future_stops_eq]
    exact forecastLoop_map_seq_name _ _ _ _ _ _ _
  · intro p hp
    simp only [compute_future_load_for_schedule,
      future_preinforms_cons_passed sch.route.id sch.date sch.current_stop_sequence
        p preinforms hp]

/-- C2 amended witness: the specification scenario evaluated concretely. -/
theorem future_stops_exactly_remaining_witness :
    ((compute_future_load_for_schedule exSchedule exStops exPreinforms).future_stops.map
        (fun o => (o.sequence, o.name)) =
      (exStops.filter (fun s => exSchedule.current_stop_sequence < s.sequence)).map
        (fun s => (s.sequence, s.name))) ∧
    (compute_future_load_for_schedule exSchedule exStops
      exPreinforms).future_stops.Pairwise (fun a b => a.sequence < b.sequence) ∧
    (∀ p : PreInform, p.boarding_stop.sequence ≤ exSchedule.current_stop_sequence →
      compute_future_load_for_schedule exSchedule exStops (p :: exPreinforms) =
        compute_future_load_for_schedule exSchedule exStops exPreinforms) :=
  future_stops_exactly_remaining exSchedule exStops exPreinforms _ rfl (by decide)

/-!
## C5: monotonic position guard
-/

/-- C5: for a position update with a positive parsed sequence (the view
rejects non positive values as invalid input before the guard), a value
strictly below the stored current stop sequence is ignored without an error:
the schedule is unchanged and the response reports the update as not applied;
otherwise the stored sequence becomes the new value. -/
theorem advance_stop_monotonic (sch : Schedule) (stop_sequence : Int)
    (hpos : 0 < stop_sequence) :
    (stop_sequence < (sch.current_stop_sequence : Int) →
      update_current_stop sch stop_sequence =
        (sch, UpdateStopResult.ignored sch.current_stop_sequence)) ∧
    ((sch.current_stop_sequence : Int) ≤ stop_sequence →
      (update_current_stop sch stop_sequence).1.current_stop_sequence =
          stop_sequence.toNat ∧
      (update_current_stop sch stop_sequence).2 =
          UpdateStopResult.applied stop_sequence.toNat) := by
  constructor
  · intro hlt
    simp only [update_current_stop, if_neg (not_le.mpr hpos), if_pos hlt]
  · intro hge
    simp [update_current_stop, if_neg (not_le.mpr hpos),
      if_neg (not_lt.mpr hge)]

/-- C5 witness: a trip at stop 5 ignores an update to stop 3 and applies an
update to stop 6. -/
theorem advance_stop_monotonic_witness :
    ((3 : Int) < ((5 : Nat) : Int) →
      update_current_stop
          ⟨21, exRoute, some exBus, 3, 20, 900, 1000, 40, 10, 12, 5, 1, false, none⟩ 3 =
        (⟨21, exRoute, some exBus, 3, 20, 900, 1000, 40, 10, 12, 5, 1, false, none⟩,
          UpdateStopResult.ignored 5)) ∧
    (((5 : Nat) : Int) ≤ (3 : Int) →
      (update_current_stop
          ⟨21, exRoute, some exBus, 3, 20, 900, 1000, 40, 10, 12, 5, 1, false, none⟩
          3).1.current_stop_sequence = (3 : Int).toNat ∧
      (update_current_stop
          ⟨21, exRoute, some exBus, 3, 20, 900, 1000, 40, 10, 12, 5, 1, false, none⟩
          3).2 = UpdateStopResult.applied (3 : Int).toNat) :=
  advance_stop_monotonic
    ⟨21, exRoute, some exBus, 3, 20, 900, 1000, 40, 10, 12, 5, 1, false, none⟩ 3
    (by decide)

/-!
## C10: empty base queryset means no deletion
-/

/-- C10: when no noted pre-inform matches the date (and zone), demand alert
regeneration returns an empty list and leaves the alert table untouched, and
when no schedule of the date (and zone) has a running bus, prediction alert
regeneration does the same, so alerts of earlier runs survive even though
the data that produced them is gone. -/
theorem refresh_without_data_keeps_alerts
    (for_date : Nat) (zone : Option Nat) (today : Nat)
    (preinforms : List PreInform) (stops : List Stop)
    (schedules : List Schedule) (alerts : List DemandAlert)
    (hpi : preinforms.filter (fun p =>
      p.date_of_travel == for_date && p.status == "noted"
        && zoneMatches zone p.route.zoneId) = [])
    (hsch : schedules.filter (fun s =>
      s.date == for_date && s.bus.any (fun b => b.is_running)
        && zoneMatches zone s.route.zoneId) = []) :
    generate_demand_alerts for_date zone today preinforms stops alerts =
        ([], alerts) ∧
    generate_prediction_alerts for_date zone today schedules preinforms stops alerts =
        ([], alerts) := by
  constructor
  · simp [generate_demand_alerts, hpi]
  · simp [generate_prediction_alerts, hsch]

/-- C10 witness: a stale alert of an earlier run survives a refresh that has
no pre-informs and no running schedules for its date. -/
theorem refresh_without_data_keeps_alerts_witness :
    generate_demand_alerts 20 none 20 [] exStops
        [⟨5, none, exStop3, 43, "reported", 20, demandAlertNote 20 43⟩] =
      ([], [⟨5, none, exStop3, 43, "reported", 20, demandAlertNote 20 43⟩]) ∧
    generate_prediction_alerts 20 none 20 [] [] exStops
        [⟨5, none, exStop3, 43, "reported", 20, demandAlertNote 20 43⟩] =
      ([], [⟨5, none, exStop3, 43, "reported", 20, demandAlertNote 20 43⟩]) :=
  refresh_without_data_keeps_alerts 20 none 20 [] exStops [] _ rfl rfl

/-!
## C6 and C7: spare bus dispatch
-/

/-- C6: when a schedule already exists for the same bus, date and departure
time, or for the same driver, date and departure time, the dispatch fails
(the rendered conflict error or the IntegrityError of the uniqueness
constraint), no schedule is created and nothing is mutated: the whole state,
including the bus table, the alert and all existing schedules, is returned
unchanged. -/
theorem dispatch_conflict_no_mutation (st : DispatchState) (bus_obj : Bus)
    (driver_id sched_date departure_time : Nat) (arrival_time : Option Nat)
    (new_id : Nat)
    (hconf :
      (∃ s ∈ st.schedules, s.bus.any (fun b => b.id == bus_obj.id) = true ∧
        s.date = sched_date ∧ s.departure_time = departure_time) ∨
      (∃ s ∈ st.schedules, s.driverId = driver_id ∧ s.date = sched_date ∧
        s.departure_time = departure_time)) :
    (dispatch_spare_bus st bus_obj driver_id sched_date departure_time
      arrival_time new_id).1 = st ∧
    ∀ sid, (dispatch_spare_bus st bus_obj driver_id sched_date departure_time
      arrival_time new_id).2 ≠ DispatchOutcome.success sid := by
  by_cases h1 : st.schedules.any (fun s =>
      s.bus.any (fun b => b.id == bus_obj.id) && s.date == sched_date
        && s.departure_time == departure_time) = true
  · constructor
    · simp [dispatch_spare_bus, h1]
    · intro sid
      simp [dispatch_spare_bus, h1]
  · have h2 : st.schedules.any (fun s =>
        s.driverId == driver_id && s.date == sched_date
          && s.departure_time == departure_time) = true := by
      rcases hconf with ⟨s, hs, hb, hd, ht⟩ | ⟨s, hs, hdr, hd, ht⟩
      · exact absurd (List.any_eq_true.mpr ⟨s, hs, by simp [hb, hd, ht]⟩) h1
      · exact List.any_eq_true.mpr ⟨s, hs, by simp [hdr, hd, ht]⟩
    constructor
    · simp [dispatch_spare_bus, h1, h2]
    · intro sid
      simp [dispatch_spare_bus, h1, h2]

def exAlert : DemandAlert :=
  ⟨6, none, exStop4, 43, "reported", 20,
    predictionNote 7 "R1" "critical" "s4" 43 40 30 20⟩

def exSpareBus : Bus := ⟨3, "KL-03-CD-5678", 35, true, false, none, none⟩

def exConflictState : DispatchState :=
  ⟨[⟨22, exRoute, some exSpareBus, 4, 20, 930, 1030, 35, 35, 0, 1, 1, false, none⟩],
    [exSpareBus], exAlert⟩

/-- C6 witness: dispatching the spare bus at a date and departure time it
already serves fails and leaves the state unchanged. -/
theorem dispatch_conflict_no_mutation_witness :
    (dispatch_spare_bus exConflictState exSpareBus 5 20 930 none 23).1 =
        exConflictState ∧
    ∀ sid, (dispatch_spare_bus exConflictState exSpareBus 5 20 930 none 23).2 ≠
        DispatchOutcome.success sid :=
  dispatch_conflict_no_mutation exConflictState exSpareBus 5 20 930 none 23
    (Or.inl ⟨⟨22, exRoute, some exSpareBus, 4, 20, 930, 1030, 35, 35, 0, 1, 1,
      false, none⟩, by decide, by decide, rfl, rfl⟩)

theorem string_empty_append (s : String) : "" ++ s = s := by
  cases s with
  | mk data => rfl

/-- C7: with no conflicting schedule, the dispatch succeeds and creates
exactly one new schedule on the route of the alert, starting and currently
positioned at the stop of the alert, with total and available seats equal to
the capacity of the chosen bus, flagged as spare trip and referencing the
alert; the chosen bus is marked running and linked to the new schedule; the
alert becomes dispatched and its notes are the old notes with a provenance
note appended. -/
theorem dispatch_success_effects (st : DispatchState) (bus_obj : Bus)
    (driver_id sched_date departure_time : Nat) (arrival_time : Option Nat)
    (new_id : Nat)
    (h1 : st.schedules.any (fun s =>
      s.bus.any (fun b => b.id == bus_obj.id) && s.date == sched_date
        && s.departure_time == departure_time) = false)
    (h2 : st.schedules.any (fun s =>
      s.driverId == driver_id && s.date == sched_date
        && s.departure_time == departure_time) = false) :
    ∃ newTrip : Schedule,
      (dispatch_spare_bus st bus_obj driver_id sched_date departure_time
        arrival_time new_id).2 = DispatchOutcome.success newTrip.id ∧
      (dispatch_spare_bus st bus_obj driver_id sched_date departure_time
        arrival_time new_id).1.schedules = st.schedules ++ [newTrip] ∧
      newTrip.route = st.alert.stop.route ∧
      newTrip.starting_stop_sequence = st.alert.stop.sequence ∧
      newTrip.current_stop_sequence = st.alert.stop.sequence ∧
      newTrip.total_seats = bus_obj.capacity ∧
      newTrip.available_seats = bus_obj.capacity ∧
      newTrip.is_spare_trip = true ∧
      newTrip.source_alert = some st.alert.id ∧
      (∀ b ∈ (dispatch_spare_bus st bus_obj driver_id sched_date departure_time
          arrival_time new_id).1.buses,
        b.id = bus_obj.id → b.is_running = true ∧
          b.current_schedule = some newTrip.id) ∧
      (dispatch_spare_bus st bus_obj driver_id sched_date departure_time
        arrival_time new_id).1.alert.status = "dispatched" ∧
      ∃ extra, (dispatch_spare_bus st bus_obj driver_id sched_date departure_time
        arrival_time new_id).1.alert.admin_notes = st.alert.admin_notes ++ extra := by
  refine ⟨{ id := new_id, route := st.alert.stop.route, bus := some bus_obj,
            driverId := driver_id, date := sched_date,
            departure_time := departure_time,
            arrival_time := arrival_time.getD departure_time,
            total_seats := bus_obj.capacity,
            available_seats := bus_obj.capacity,
            current_passengers := 0,
            current_stop_sequence := st.alert.stop.sequence,
            starting_stop_sequence := st.alert.stop.sequence,
            is_spare_trip := true, source_alert := some st.alert.id },
    ?_, ?_, rfl, rfl, rfl, rfl, rfl, rfl, rfl, ?_, ?_, ?_⟩
  · simp [dispatch_spare_bus, h1, h2]
  · simp [dispatch_spare_bus, h1, h2]
  · intro b hb hid
    simp only [dispatch_spare_bus, h1, h2] at hb
    simp only [Bool.false_eq_true, if_false] at hb
    rcases List.mem_map.mp hb with ⟨b0, hb0, hbeq⟩
    by_cases hb0id : b0.id == bus_obj.id
    · rw [if_pos hb0id] at hbeq
      subst hbeq
      exact ⟨rfl, rfl⟩
    · rw [if_neg hb0id] at hbeq
      subst hbeq
      exact absurd (beq_iff_eq.mpr hid) hb0id
  · simp [dispatch_spare_bus, h1, h2]
  · by_cases hnotes : st.alert.admin_notes == ""
    · refine ⟨spareDispatchNote bus_obj.number_plate st.alert.stop.name
        st.alert.stop.sequence new_id, ?_⟩
      have hn : st.alert.admin_notes = "" := beq_iff_eq.mp hnotes
      simp [dispatch_spare_bus, h1, h2, hnotes, hn, string_empty_append]
    · refine ⟨spareDispatchNote bus_obj.number_plate st.alert.stop.name
        st.alert.stop.sequence new_id, ?_⟩
      simp [dispatch_spare_bus, h1, h2, hnotes]

def exCleanState : DispatchState := ⟨[], [exSpareBus], exAlert⟩

/-- C7 witness: a conflict free dispatch evaluated concretely. -/
theorem dispatch_success_effects_witness :
    ∃ newTrip : Schedule,
      (dispatch_spare_bus exCleanState exSpareBus 5 20 930 none 23).2 =
          DispatchOutcome.success newTrip.id ∧
      (dispatch_spare_bus exCleanState exSpareBus 5 20 930 none
        23).1.schedules = exCleanState.schedules ++ [newTrip] ∧
      newTrip.route = exCleanState.alert.stop.route ∧
      newTrip.starting_stop_sequence = exCleanState.alert.stop.sequence ∧
      newTrip.current_stop_sequence = exCleanState.alert.stop.sequence ∧
      newTrip.total_seats = exSpareBus.capacity ∧
      newTrip.available_seats = exSpareBus.capacity ∧
      newTrip.is_spare_trip = true ∧
      newTrip.source_alert = some exCleanState.alert.id ∧
      (∀ b ∈ (dispatch_spare_bus exCleanState exSpareBus 5 20 930 none
          23).1.buses,
        b.id = exSpareBus.id → b.is_running = true ∧
          b.current_schedule = some newTrip.id) ∧
      (dispatch_spare_bus exCleanState exSpareBus 5 20 930 none
        23).1.alert.status = "dispatched" ∧
      ∃ extra, (dispatch_spare_bus exCleanState exSpareBus 5 20 930 none
        23).1.alert.admin_notes = exCleanState.alert.admin_notes ++ extra :=
  dispatch_success_effects exCleanState exSpareBus 5 20 930 none 23 rfl rfl

/-!
## C3: what the delete step of a refresh removes
-/

def exDispatchedAlert : DemandAlert :=
  ⟨5, none, exStop3, 43, "dispatched", 20,
    demandAlertNote 20 43 ++ spareDispatchNote "KL-03-CD-5678" "s3" 3 23⟩

set_option maxRecDepth 8192 in
/-- C3 counterexample: an alert created by the demand generator on date 20 and
then advanced to dispatched by an operator is removed by the next demand
alert regeneration of the same date, because the delete step filters only on
creation date and the Pre-Informs note marker, never on the status field. -/
theorem refresh_preserves_advanced_alerts_cex :
    exDispatchedAlert.status = "dispatched" ∧
    exDispatchedAlert ∉
      (generate_demand_alerts 20 none 20 exPreinforms exStops
        [exDispatchedAlert]).2 := by
  refine ⟨rfl, by decide⟩

/-- C3 amended: the delete step of generate_demand_alerts removes every alert
whose creation date matches the refresh date, whose notes contain the
Pre-Informs marker and which matches the zone restriction, regardless of its
lifecycle status; since freshly created alerts always carry status reported,
an alert with any other status (verified, dispatched, resolved) satisfying
those conditions is absent from the table after a refresh that found noted
pre-informs. -/
theorem refresh_deletes_advanced_alerts (for_date : Nat) (zone : Option Nat)
    (today : Nat) (preinforms : List PreInform) (stops : List Stop)
    (alerts : List DemandAlert) (a : DemandAlert)
    (hdate : a.created_at_date = for_date)
    (hnotes : strContainsCI a.admin_notes preInformsMarker = true)
    (hzone : zoneMatches zone a.stop.route.zoneId = true)
    (hstatus : a.status ≠ "reported")
    (hqs : preinforms.filter (fun p =>
      p.date_of_travel == for_date && p.status == "noted"
        && zoneMatches zone p.route.zoneId) ≠ []) :
    a ∉ (generate_demand_alerts for_date zone today preinforms stops alerts).2 := by
  intro hmem
  have hempty : (preinforms.filter (fun p =>
      p.date_of_travel == for_date && p.status == "noted"
        && zoneMatches zone p.route.zoneId)).isEmpty = false := by
    cases hfe : preinforms.filter (fun p =>
        p.date_of_travel == for_date && p.status == "noted"
          && zoneMatches zone p.route.zoneId) with
    | nil => exact absurd hfe hqs
    | cons x xs => rfl
  simp only [generate_demand_alerts, hempty, Bool.false_eq_true, if_false] at hmem
  rcases List.mem_append.mp hmem with hkept | hcreated
  · have hcond := (List.mem_filter.mp hkept).2
    simp [hdate, hnotes, hzone] at hcond
  · rcases List.mem_filterMap.mp hcreated with ⟨stopRec, _, hfn⟩
    cases hfind : stops.find? (fun s => s.id == stopRec.id) with
    | none =>
      rw [hfind] at hfn
      simp at hfn
    | some stop =>
      rw [hfind] at hfn
      simp only [Option.some.injEq] at hfn
      have : a.status = "reported" := by
        rw [← hfn]
      exact hstatus this

def exVerifiedAlert : DemandAlert :=
  ⟨8, none, exStop4, 18, "verified", 20, demandAlertNote 20 18⟩

/-- C3 amended witness: a verified alert of date 20 with the Pre-Informs
marker is gone after a refresh of date 20 that found noted pre-informs. -/
theorem refresh_deletes_advanced_alerts_witness :
    exVerifiedAlert ∉
      (generate_demand_alerts 20 none 20 exPreinforms exStops
        [exVerifiedAlert]).2 :=
  refresh_deletes_advanced_alerts 20 none 20 exPreinforms exStops
    [exVerifiedAlert] exVerifiedAlert rfl (by decide) rfl (by decide) (by decide)

/-!
## C4: how many alerts one trip produces
-/

def overloadSchedule : Schedule :=
  ⟨8, exRoute, some exBus, 3, 20, 900, 1000, 10, 1, 9, 1, 1, false, none⟩

/-- C4 counterexample: a running trip of capacity 10 with 9 passengers aboard
and noted pre-informs of 5 at stop 3 and 8 at stop 4 is over capacity at both
stops, and one regeneration creates two alerts for this single trip, one per
over capacity stop — not at most one targeting the first overflow stop. -/
theorem one_alert_per_trip_cex :
    ((generate_prediction_alerts 20 none 20 [overloadSchedule] exPreinforms
        exStops []).1.map (fun a => a.stop.sequence)) = [3, 4] := by
  decide

theorem filterMap_tracks_filter {α β γ : Type} (fn : α → Option β)
    (qual : α → Bool) (g : β → γ) (h : α → γ) :
    ∀ rows : List α,
      (∀ row ∈ rows, ∀ b, fn row = some b → qual row = true ∧ g b = h row) →
      (∀ row ∈ rows, fn row = none → qual row = false) →
      (rows.filterMap fn).map g = (rows.filter qual).map h := by
  intro rows
  induction rows with
  | nil => intro _ _; simp
  | cons r rest ih =>
    intro hsome hnone
    have ihr := ih (fun x hx => hsome x (List.mem_cons_of_mem r hx))
      (fun x hx => hnone x (List.mem_cons_of_mem r hx))
    cases hfr : fn r with
    | some b =>
      rcases hsome r (List.mem_cons_self r rest) b hfr with ⟨hq, hg⟩
      simp [List.filterMap_cons, List.filter_cons, hfr, hq, hg, ihr]
    | none =>
      have hq := hnone r (List.mem_cons_self r rest) hfr
      simp [List.filterMap_cons, List.filter_cons, hfr, hq, ihr]

/-- C4 amended: for one running trip, the regeneration creates one alert per
forecast row with positive expected load that is either strictly over
capacity (critical) or at 90 percent or more of capacity (high); each created
alert targets the stop of its row and carries the expected load of its row,
so several overflowing stops of the same trip each produce an alert. -/
theorem prediction_alert_per_qualifying_row (stops : List Stop)
    (today for_date : Nat) (sch : Schedule) (preinforms : List PreInform)
    (hres : ∀ row ∈ (compute_bus_load_for_schedule sch preinforms).rows,
      (stops.find? (fun s => s.id == row.stop_id)).isSome = true) :
    ((predictionAlertsForSchedule stops today for_date sch preinforms).map
        (fun a => (a.stop.id, a.number_of_people)) =
      ((compute_bus_load_for_schedule sch preinforms).rows.filter (fun row =>
        !(row.expected_load == 0) &&
          (decide ((compute_bus_load_for_schedule sch preinforms).capacity
              < row.expected_load) || decide ((9 : ℚ)/10 ≤ row.ratio)))).map
        (fun row => (row.stop_id, row.expected_load))) ∧
    (predictionAlertsForSchedule stops today for_date sch preinforms).length =
      ((compute_bus_load_for_schedule sch preinforms).rows.filter (fun row =>
        !(row.expected_load == 0) &&
          (decide ((compute_bus_load_for_schedule sch preinforms).capacity
              < row.expected_load) || decide ((9 : ℚ)/10 ≤ row.ratio)))).length := by
  have hmap :
      ((predictionAlertsForSchedule stops today for_date sch preinforms).map
        (fun a => (a.stop.id, a.number_of_people)) =
      ((compute_bus_load_for_schedule sch preinforms).rows.filter (fun row =>
        !(row.expected_load == 0) &&
          (decide ((compute_bus_load_for_schedule sch preinforms).capacity
              < row.expected_load) || decide ((9 : ℚ)/10 ≤ row.ratio)))).map
        (fun row => (row.stop_id, row.expected_load))) := by
    simp only [predictionAlertsForSchedule]
    refine filterMap_tracks_filter _ _ _ _ _ ?_ ?_
    · intro row hrow b hfn
      by_cases h0 : row.expected_load == 0
      · rw [if_pos h0] at hfn
        exact absurd hfn (by simp)
      · rw [if_neg h0] at hfn
        cases hfind : stops.find? (fun s => s.id == row.stop_id) with
        | none =>
          rw [hfind] at hfn
          by_cases hc : (compute_bus_load_for_schedule sch preinforms).capacity
              < row.expected_load
          · rw [if_pos hc] at hfn
            exact absurd hfn (by simp)
          · rw [if_neg hc] at hfn
            by_cases hh : (9 : ℚ)/10 ≤ row.ratio
            · rw [if_pos hh] at hfn
              exact absurd hfn (by simp)
            · rw [if_neg hh] at hfn
              exact absurd hfn (by simp)
        | some stop =>
          rw [hfind] at hfn
          have hstopid : stop.id = row.stop_id := by
            have := List.find?_some hfind
            exact beq_iff_eq.mp this
          by_cases hc : (compute_bus_load_for_schedule sch preinforms).capacity
              < row.expected_load
          · rw [if_pos hc] at hfn
            simp only [Option.some.injEq] at hfn
            refine ⟨by simp [h0, hc], ?_⟩
            rw [← hfn]
            simp [hstopid]
          · rw [if_neg hc] at hfn
            by_cases hh : (9 : ℚ)/10 ≤ row.ratio
            · rw [if_pos hh] at hfn
              simp only [Option.some.injEq] at hfn
              refine ⟨by simp [h0, hh], ?_⟩
              rw [← hfn]
              simp [hstopid]
            · rw [if_neg hh] at hfn
              exact absurd hfn (by simp)
    · intro row hrow hfn
      by_cases h0 : row.expected_load == 0
      · simp [h0]
      · rw [if_neg h0] at hfn
        rcases Option.isSome_iff_exists.mp (hres row hrow) with ⟨stop, hfind⟩
        rw [hfind] at hfn
        by_cases hc : (compute_bus_load_for_schedule sch preinforms).capacity
            < row.expected_load
        · rw [if_pos hc] at hfn
          exact absurd hfn (by simp)
        · rw [if_neg hc] at hfn
          by_cases hh : (9 : ℚ)/10 ≤ row.ratio
          · rw [if_pos hh] at hfn
            exact absurd hfn (by simp)
          · simp [h0, hc, hh]
  refine ⟨hmap, ?_⟩
  have := congrArg List.length hmap
  simpa using this

/-- C4 amended witness: the two stop overload trip evaluated concretely. -/
theorem prediction_alert_per_qualifying_row_witness :
    ((predictionAlertsForSchedule exStops 20 20 overloadSchedule exPreinforms).map
        (fun a => (a.stop.id, a.number_of_people)) =
      ((compute_bus_load_for_schedule overloadSchedule exPreinforms).rows.filter
        (fun row => !(row.expected_load == 0) &&
          (decide ((compute_bus_load_for_schedule overloadSchedule
              exPreinforms).capacity < row.expected_load) ||
            decide ((9 : ℚ)/10 ≤ row.ratio)))).map
        (fun row => (row.stop_id, row.expected_load))) ∧
    (predictionAlertsForSchedule exStops 20 20 overloadSchedule
        exPreinforms).length =
      ((compute_bus_load_for_schedule overloadSchedule exPreinforms).rows.filter
        (fun row => !(row.expected_load == 0) &&
          (decide ((compute_bus_load_for_schedule overloadSchedule
              exPreinforms).capacity < row.expected_load) ||
            decide ((9 : ℚ)/10 ≤ row.ratio)))).length :=
  prediction_alert_per_qualifying_row exStops 20 20 overloadSchedule
    exPreinforms (by decide)

end Transport
